import Mathlib

/-!
Verification of the expression-evaluation core and the object-store
registry of this repository.

Two source files are embedded:
* `crates/sparrow-expressions/src/evaluators/string/len.rs` — the string
  length evaluator (`LenEvaluator`, its `evaluate`, its `create`, and its
  static registration under the name `len`);
* `crates/sparrow-runtime/src/stores/object_stores.rs` — the
  `ObjectStoreRegistry` (`object_store` get-or-create, `upload`, the
  `Error` enum and `create_object_store`).

Supporting types that the first file uses but whose definitions are not in
the repository snapshot (`StaticInfo`, `WorkArea`, `StringValue`, the
evaluator factory registry) are modelled from the specification, and say
so in their doc comments.  External crates (`arrow_string`, `error_stack`,
`dashmap`, `tokio::fs`, `object_store`) are modelled from their documented
semantics.
-/

namespace Expressions

/-- Logical type tag carried by argument handles (spec: "String, Int, Bool, …"). -/
inductive DataType where
  | string
  | i32
  | i64
  | boolean
  deriving DecidableEq, Repr

/-- A materialized columnar array (`ArrayRef`): dynamically typed, each
element either null (`none`) or a value. -/
inductive ArrayData where
  | strings (vals : List (Option String))
  | ints (vals : List (Option Int))
  | booleans (vals : List (Option Bool))
  deriving DecidableEq, Repr

/-- Modelled from the spec: a typed Value Handle for a string-typed node
output — "a typed reference to a node's output, carrying … a position
identifier; constructed only through a validating conversion from an
untyped handle" (`crate::values::StringValue`, not in the snapshot). -/
structure StringValue where
  index : Nat
  deriving DecidableEq, Repr

/-- Modelled from the spec: the Evaluation Context (`WorkArea`, not in the
snapshot) — "an ordered, append-only store of materialized per-node
results for one batch; exposes lookup-by-handle". -/
structure WorkArea where
  expressions : List ArrayData
  deriving DecidableEq, Repr

/-- Modelled from the spec: lookup-by-handle on the Evaluation Context.
`none` models the programming-error class failure for an unstored
position ("looking up an unstored position is a programming-error class
failure"). -/
def WorkArea.expression (w : WorkArea) (v : StringValue) : Option ArrayData :=
  w.expressions[v.index]?

/-- Errors of the arrow compute kernels (external `arrow` crate). -/
inductive ArrowError where
  | computeError (msg : String)
  deriving DecidableEq, Repr

/-- Error contexts of the sparrow-expressions crate.  `exprEvaluation` is
the context attached by `LenEvaluator::evaluate` in the source (a unit
variant: the call site `change_context(Error::ExprEvaluation)` passes no
payload).  The remaining variants are modelled from the spec for the
plan-build-time paths whose code is not in the snapshot: an arity error
naming the operation, a type mismatch naming expected and actual types,
and an unknown-operation error naming the requested operation. -/
inductive Error where
  | exprEvaluation
  | arityError (operation : String)
  | typeMismatch (expected : DataType) (actual : DataType)
  | unknownOperation (operation : String)
  deriving DecidableEq, Repr

/-- The operation name, if any, carried by an error context. -/
def Error.namesOperation : Error → Option String
  | .arityError op => some op
  | .unknownOperation op => some op
  | .exprEvaluation => none
  | .typeMismatch _ _ => none

/-- A frame of an `error_stack::Report`: either a context of this crate or
an originating arrow cause. -/
inductive Frame where
  | exprFrame (e : Error)
  | arrowFrame (e : ArrowError)
  deriving DecidableEq, Repr

/-- Model of `error_stack::Report`: the stack of frames, most recent
context first. -/
structure Report where
  frames : List Frame
  deriving DecidableEq, Repr

/-- Model of `error_stack`: `into_report` turns an arrow error into a
report whose single frame is that cause. -/
def into_report (c : ArrowError) : Report :=
  { frames := [Frame.arrowFrame c] }

/-- Model of `error_stack`: `change_context` pushes a new context frame on
top of the report, keeping the originating frames underneath. -/
def change_context (e : Error) (r : Report) : Report :=
  { frames := Frame.exprFrame e :: r.frames }

/-- Model of the external `arrow_string::length::length` kernel on a
dynamically typed array: for a string array it returns, per element, the
value's length in bytes (null in, null out); any other array type is a
compute error. -/
def arrowLength : ArrayData → Except ArrowError ArrayData
  | .strings vals =>
      .ok (.ints (vals.map (Option.map fun s => (s.utf8ByteSize : Int))))
  | .ints _ => .error (.computeError "length not supported for Int32")
  | .booleans _ => .error (.computeError "length not supported for Boolean")

/-- `LenEvaluator` from the source: holds only the string-typed handle
resolved at construction. -/
structure LenEvaluator where
  input : StringValue
  deriving DecidableEq, Repr

/-- `LenEvaluator::evaluate` from the source: look the handle's array up
in the work area, apply the arrow length kernel, and either return the
resulting array or wrap the arrow cause under the `ExprEvaluation`
context.  The outer `Option` is `none` exactly when the handle's position
is not stored (the programming-error case of the lookup). -/
def LenEvaluator.evaluate (e : LenEvaluator) (info : WorkArea) :
    Option (Except Report ArrayData) :=
  match info.expression e.input with
  | none => none
  | some input =>
      match arrowLength input with
      | .error c => some (.error (change_context Error.exprEvaluation (into_report c)))
      | .ok result => some (.ok result)

/-- Modelled from the spec: an untyped argument handle held by Static Node
Info — position index plus the referenced node's declared output type
("the ordered list of argument handles (untyped)"). -/
structure ArgHandle where
  index : Nat
  data_type : DataType
  deriving DecidableEq, Repr

/-- Modelled from the spec: Static Node Info (`StaticInfo`, not in the
snapshot) — the operation's name and the ordered argument handles,
consumed left-to-right by "unpack next argument". -/
structure StaticInfo where
  name : String
  args : List ArgHandle
  deriving DecidableEq, Repr

/-- Modelled from the spec: "unpack next argument — returns the next
untyped handle in declared order or fails with an arity error … if none
remain", removing the consumed argument from the info. -/
def StaticInfo.unpack_argument (info : StaticInfo) :
    Except Error (ArgHandle × StaticInfo) :=
  match info.args with
  | [] => .error (.arityError info.name)
  | a :: rest => .ok (a, { name := info.name, args := rest })

/-- Modelled from the spec: the validating conversion of an untyped handle
into a string-typed handle — succeeds exactly when the declared type is
string, and "on mismatch it fails with a type-mismatch error identifying
the expected vs. actual type". -/
def ArgHandle.string (a : ArgHandle) : Except Error StringValue :=
  if a.data_type = DataType.string then .ok { index := a.index }
  else .error (.typeMismatch DataType.string a.data_type)

/-- The boxed evaluator (`Box<dyn Evaluator>`): one variant per operation
in the snapshot; only the string-length evaluator is present. -/
inductive Evaluator where
  | len (e : LenEvaluator)
  deriving DecidableEq, Repr

/-- `create` from the source: unpack one argument, resolve it as a
string-typed handle, and build the `LenEvaluator` holding that handle. -/
def create (info : StaticInfo) : Except Error Evaluator := do
  let (input, _) ← info.unpack_argument
  let sv ← input.string
  return Evaluator.len { input := sv }

/-- `EvaluatorFactory` from the source: a name paired with a constructor. -/
structure EvaluatorFactory where
  name : String
  create : StaticInfo → Except Error Evaluator

/-- Modelled from the spec: the process-wide Evaluator Factory Registry as
the collection of registered factories; `register(name, constructor)` adds
an entry before any plan is built. -/
def register (r : List EvaluatorFactory) (f : EvaluatorFactory) :
    List EvaluatorFactory :=
  f :: r

/-- Modelled from the spec: `get(name) -> constructor`, "failing with an
unknown operation error (naming the requested operation) if absent". -/
def get (r : List EvaluatorFactory) (name : String) :
    Except Error (StaticInfo → Except Error Evaluator) :=
  match r.find? (fun f => f.name = name) with
  | some f => .ok f.create
  | none => .error (.unknownOperation name)

/-- The static registration performed by the source's `inventory::submit!`
block: the string-length constructor is entered under the name `len`
before any plan is built. -/
def builtinRegistry : List EvaluatorFactory :=
  register [] { name := "len", create := create }

/-- State-passing form of the work-area lookup: the read returns the
looked-up array together with the (unchanged) work area, making the
absence of writes explicit. -/
def WorkArea.expressionSt (w : WorkArea) (v : StringValue) :
    Option ArrayData × WorkArea :=
  (w.expression v, w)

/-- State-passing form of `LenEvaluator::evaluate`, threading the work
area through every step of the source body so that its effect (none) on
the Evaluation Context can be stated. -/
def LenEvaluator.evaluateSt (e : LenEvaluator) (w : WorkArea) :
    Option (Except Report ArrayData) × WorkArea :=
  match WorkArea.expressionSt w e.input with
  | (none, w1) => (none, w1)
  | (some input, w1) =>
      match arrowLength input with
      | .error c =>
          (some (.error (change_context Error.exprEvaluation (into_report c))), w1)
      | .ok result => (some (.ok result), w1)

end Expressions

namespace Stores

/-- `ObjectStoreKey` (declared in `object_store_url.rs` of the same crate,
used throughout the embedded file): the scheme/key under which one backend
is cached per distinct value. -/
inductive ObjectStoreKey where
  | Local
  | Memory
  | Aws (bucket : String) (region : Option String) (virtual_hosted_style_request : Bool)
  | Gcs (bucket : String)
  deriving DecidableEq, Repr

/-- The `Error` enum of `object_stores.rs`, variant for variant (URL and
path payloads rendered as strings). -/
inductive Error where
  | ReadWriteObjectStore
  | ObjectStore
  | InvalidUrl (url : String)
  | UrlMissingHost (url : String)
  | UrlUnsupportedHost (url : String)
  | UrlUnsupportedScheme (url : String)
  | UrlInvalidPath (url : String)
  | CreatingObjectStore
  | DownloadingObject (fromUrl : String) (toPath : String)
  | Internal
  deriving DecidableEq, Repr

/-- Whether the external AWS/GCS builder (`from_env` credentials) succeeds
for a key in the ambient process environment; the local and in-memory
stores are constructed infallibly. -/
structure BuildEnv where
  buildOk : ObjectStoreKey → Bool

/-- The ambient environment in which every backend builder succeeds. -/
def envAllOk : BuildEnv :=
  { buildOk := fun _ => true }

/-- `create_object_store` from the source: local and in-memory stores are
built unconditionally; AWS and GCS builders can fail, yielding
`CreatingObjectStore`.  A successful build allocates a fresh backend
handle (`Arc::new`), modelled by the supplied fresh identity. -/
def create_object_store (env : BuildEnv) (key : ObjectStoreKey) (fresh : Nat) :
    Except Error Nat :=
  match key with
  | .Local => .ok fresh
  | .Memory => .ok fresh
  | .Aws _ _ _ =>
      if env.buildOk key then .ok fresh else .error .CreatingObjectStore
  | .Gcs _ =>
      if env.buildOk key then .ok fresh else .error .CreatingObjectStore

/-- Modelled from the spec: an `ObjectStoreUrl` as this module consumes it
— `key()` resolves the location to its scheme/key and `path()` to the path
within the store (the URL parsing lives in `object_store_url.rs`, outside
the snapshot); each resolution either succeeds or fails with a URL error. -/
structure ObjectStoreUrl where
  key_result : Except Error ObjectStoreKey
  path_result : Except Error String

/-- `ObjectStoreUrl::key` — resolve the URL to its scheme/key. -/
def ObjectStoreUrl.key (u : ObjectStoreUrl) : Except Error ObjectStoreKey :=
  u.key_result

/-- `ObjectStoreUrl::path` — resolve the URL to its in-store path. -/
def ObjectStoreUrl.path (u : ObjectStoreUrl) : Except Error String :=
  u.path_result

/-- The `ObjectStoreRegistry` state: the `DashMap` from key to backend
handle, modelled as an association list with unique keys, together with
the supply of fresh backend identities for `Arc::new` allocations. -/
structure ObjectStoreRegistry where
  object_stores : List (ObjectStoreKey × Nat)
  nextId : Nat

/-- The empty registry (`ObjectStoreRegistry::new` / `Default`). -/
def ObjectStoreRegistry.new : ObjectStoreRegistry :=
  { object_stores := [], nextId := 0 }

/-- Association-list lookup modelling `DashMap` access by key. -/
def lookupKey (m : List (ObjectStoreKey × Nat)) (k : ObjectStoreKey) : Option Nat :=
  match m with
  | [] => none
  | (k1, h) :: rest => if k1 = k then some h else lookupKey rest k

/-- `ObjectStoreRegistry::object_store` from the source: resolve the URL's
key; on an occupied entry return the cached handle; on a vacant entry
create the backend, insert it, and return the inserted handle.  Returns
the result together with the updated registry state. -/
def ObjectStoreRegistry.object_store (env : BuildEnv) (s : ObjectStoreRegistry)
    (url : ObjectStoreUrl) : Except Error Nat × ObjectStoreRegistry :=
  match url.key with
  | .error e => (.error e, s)
  | .ok key =>
      match lookupKey s.object_stores key with
      | some h => (.ok h, s)
      | none =>
          match create_object_store env key s.nextId with
          | .error e => (.error e, s)
          | .ok h =>
              (.ok h,
                { object_stores := s.object_stores ++ [(key, h)],
                  nextId := s.nextId + 1 })

/-- Outcomes of the external effects performed by `upload`: opening the
local source file (`tokio::fs::File::open`), starting the multipart upload
(`put_multipart`), copying the bytes into the remote writer
(`tokio::io::copy`), and completing the remote write (`shutdown`). -/
structure UploadIO where
  openOk : Bool
  putMultipartOk : Bool
  copyOk : Bool
  shutdownOk : Bool
  deriving DecidableEq, Repr

/-- `ObjectStoreRegistry::upload` from the source, step for step: resolve
the target path, resolve or cache the backend, then open the local file
(context `Internal` on failure), start the multipart upload (context
`ReadWriteObjectStore` on failure), copy the bytes (context `Internal` on
failure) and shut the writer down (context `Internal` on failure). -/
def ObjectStoreRegistry.upload (env : BuildEnv) (s : ObjectStoreRegistry)
    (target_url : ObjectStoreUrl) (io : UploadIO) :
    Except Error Unit × ObjectStoreRegistry :=
  match target_url.path with
  | .error e => (.error e, s)
  | .ok _target_path =>
      match ObjectStoreRegistry.object_store env s target_url with
      | (.error e, s1) => (.error e, s1)
      | (.ok _object_store, s1) =>
          (if io.openOk then
            if io.putMultipartOk then
              if io.copyOk then
                if io.shutdownOk then .ok ()
                else .error .Internal
              else .error .Internal
            else .error .ReadWriteObjectStore
          else .error .Internal, s1)

/-- One public registry operation, for stating stability of the cache
across arbitrary later usage. -/
inductive RegistryOp where
  | getStore (url : ObjectStoreUrl)
  | uploadOp (url : ObjectStoreUrl) (io : UploadIO)

/-- Run one registry operation, keeping only its effect on the state. -/
def runOp (env : BuildEnv) (s : ObjectStoreRegistry) : RegistryOp → ObjectStoreRegistry
  | .getStore url => (ObjectStoreRegistry.object_store env s url).2
  | .uploadOp url io => (ObjectStoreRegistry.upload env s url io).2

/-- Run a sequence of registry operations. -/
def runOps (env : BuildEnv) (s : ObjectStoreRegistry) (ops : List RegistryOp) :
    ObjectStoreRegistry :=
  ops.foldl (runOp env) s

end Stores

namespace Expressions

/-- Claim C1: for every string input array stored at the evaluator's bound
position, `evaluate` succeeds with an array of the same length in which
each non-null element is mapped to its length and each null element to
null; the concrete instance (input `["ab", null, "", "xyz"]` yields
`[2, null, 0, 3]`) is discharged in the witness. -/
theorem lenEvaluator_maps_lengths_null_preserving
    (e : LenEvaluator) (w : WorkArea) (vals : List (Option String))
    (h : w.expression e.input = some (ArrayData.strings vals)) :
    e.evaluate w =
      some (Except.ok (ArrayData.ints
        (vals.map (Option.map fun s => (s.utf8ByteSize : Int))))) ∧
    (vals.map (Option.map fun s => (s.utf8ByteSize : Int))).length = vals.length ∧
    ∀ i : Nat,
      (vals.map (Option.map fun s => (s.utf8ByteSize : Int)))[i]? =
        (vals[i]?).map (Option.map fun s => (s.utf8ByteSize : Int)) := by
  refine ⟨?_, ?_, ?_⟩
  · simp [LenEvaluator.evaluate, h, arrowLength]
  · simp
  · intro i
    simp [List.getElem?_map]

/-- Witness for C1 at the concrete input of the claim: evaluating the
string-length evaluator over `["ab", null, "", "xyz"]` yields
`[2, null, 0, 3]`. -/
theorem lenEvaluator_maps_lengths_null_preserving_witness :
    LenEvaluator.evaluate ⟨⟨0⟩⟩
        ⟨[ArrayData.strings [some "ab", none, some "", some "xyz"]]⟩ =
      some (Except.ok (ArrayData.ints [some 2, none, some 0, some 3])) := by
  have h := lenEvaluator_maps_lengths_null_preserving ⟨⟨0⟩⟩
    ⟨[ArrayData.strings [some "ab", none, some "", some "xyz"]]⟩
    [some "ab", none, some "", some "xyz"] (by decide)
  exact h.1.trans (by rfl)

/-- Claim C4: construction of the string-length evaluator resolves exactly
one argument as a string-typed handle and fails otherwise — with no
remaining arguments it fails with an arity error, and when the next
argument's declared type is not string it fails with a type-mismatch error
naming both the expected and the actual type. -/
theorem create_resolves_one_string_argument (info : StaticInfo) :
    (info.args = [] → create info = .error (.arityError info.name)) ∧
    (∀ a rest, info.args = a :: rest → a.data_type ≠ DataType.string →
      create info = .error (.typeMismatch DataType.string a.data_type)) ∧
    (∀ a rest, info.args = a :: rest → a.data_type = DataType.string →
      create info = .ok (.len { input := { index := a.index } })) := by
  refine ⟨?_, ?_, ?_⟩
  · intro h
    simp [create, StaticInfo.unpack_argument, h, Bind.bind, Except.bind]
  · intro a rest h hne
    simp [create, StaticInfo.unpack_argument, h, ArgHandle.string, hne,
      Bind.bind, Except.bind, Functor.map, Except.map]
  · intro a rest h heq
    simp [create, StaticInfo.unpack_argument, h, ArgHandle.string, heq,
      Bind.bind, Except.bind, Functor.map, Except.map, pure, Except.pure]

/-- Witness for C4: concrete arity failure, type-mismatch failure and
success of `create`. -/
theorem create_resolves_one_string_argument_witness :
    create { name := "len", args := [] } = .error (.arityError "len") ∧
    create { name := "len", args := [{ index := 0, data_type := DataType.i64 }] } =
      .error (.typeMismatch DataType.string DataType.i64) ∧
    create { name := "len", args := [{ index := 3, data_type := DataType.string }] } =
      .ok (.len { input := { index := 3 } }) :=
  ⟨(create_resolves_one_string_argument _).1 rfl,
   (create_resolves_one_string_argument _).2.1 _ [] rfl (by decide),
   (create_resolves_one_string_argument _).2.2 _ [] rfl rfl⟩

/-- Counterexample to claim C5 as stated: at a concrete failing batch (an
Int32 array stored at the bound position) `evaluate` fails and wraps the
arrow cause, but the attached context is the payload-free
`ExprEvaluation`, which carries no operation name — the error is not
tagged with the failing operation's identity. -/
theorem lenEvaluator_error_unnamed_counterexample :
    LenEvaluator.evaluate ⟨⟨0⟩⟩ ⟨[ArrayData.ints [some 1]]⟩ =
      some (.error { frames := [Frame.exprFrame Error.exprEvaluation,
        Frame.arrowFrame (ArrowError.computeError "length not supported for Int32")] }) ∧
    Error.namesOperation Error.exprEvaluation = none :=
  ⟨rfl, rfl⟩

/-- Claim C5 as amended: whenever the underlying per-batch computation
fails, `evaluate` returns an evaluation error whose frames wrap the
originating arrow cause under the `ExprEvaluation` context; that context
is a generic marker that does not carry the failing operation's name. -/
theorem lenEvaluator_wraps_cause_generic_tag (e : LenEvaluator) (w : WorkArea)
    (arr : ArrayData) (c : ArrowError)
    (h : w.expression e.input = some arr)
    (hc : arrowLength arr = .error c) :
    e.evaluate w = some (.error (change_context Error.exprEvaluation (into_report c))) ∧
    Frame.arrowFrame c ∈ (change_context Error.exprEvaluation (into_report c)).frames ∧
    Error.namesOperation Error.exprEvaluation = none := by
  refine ⟨?_, ?_, rfl⟩
  · simp [LenEvaluator.evaluate, h, hc]
  · simp [change_context, into_report]

/-- Witness for the amended C5 at a concrete failing batch. -/
theorem lenEvaluator_wraps_cause_generic_tag_witness :
    LenEvaluator.evaluate ⟨⟨0⟩⟩ ⟨[ArrayData.booleans [none]]⟩ =
      some (.error (change_context Error.exprEvaluation
        (into_report (ArrowError.computeError "length not supported for Boolean")))) :=
  (lenEvaluator_wraps_cause_generic_tag ⟨⟨0⟩⟩ ⟨[ArrayData.booleans [none]]⟩
    (ArrayData.booleans [none]) (ArrowError.computeError "length not supported for Boolean")
    (by decide) (by rfl)).1

/-- Claim C6: `get` after `register` returns the registered constructor;
`get` on a name under which nothing is registered fails with an unknown
operation error naming the requested operation; and the string-length
constructor is registered under the name `len` by the static registration
block. -/
theorem registry_get_after_register (r : List EvaluatorFactory)
    (f : EvaluatorFactory) (name : String) (habs : ∀ g ∈ r, g.name ≠ name) :
    get (register r f) f.name = .ok f.create ∧
    get r name = .error (.unknownOperation name) ∧
    get builtinRegistry "len" = .ok create := by
  refine ⟨?_, ?_, rfl⟩
  · simp [get, register]
  · have : r.find? (fun g => g.name = name) = none := by
      rw [List.find?_eq_none]
      intro g hg
      simpa using habs g hg
    simp [get, this]

/-- Witness for C6 at a concrete registry. -/
theorem registry_get_after_register_witness :
    get (register [] { name := "reverse", create := create }) "reverse" =
      .ok create ∧
    get [] "plus" = .error (.unknownOperation "plus") ∧
    get builtinRegistry "len" = .ok create :=
  registry_get_after_register [] { name := "reverse", create := create }
    "plus" (by simp)

/-- Claim C7: running the same constructed string-length evaluator on two
evaluation contexts holding identical arrays at the bound position yields
identical outputs — the evaluator retains no state beyond the handle fixed
at construction. -/
theorem lenEvaluator_idempotent_across_contexts (e : LenEvaluator)
    (w1 w2 : WorkArea) (h : w1.expression e.input = w2.expression e.input) :
    e.evaluate w1 = e.evaluate w2 := by
  unfold LenEvaluator.evaluate
  rw [h]

/-- Witness for C7: two distinct work area contexts with identical input
arrays at the bound position give identical outputs. -/
theorem lenEvaluator_idempotent_across_contexts_witness :
    (⟨[ArrayData.strings [some "ab"]]⟩ : WorkArea) ≠
      ⟨[ArrayData.strings [some "ab"], ArrayData.ints []]⟩ ∧
    LenEvaluator.evaluate ⟨⟨0⟩⟩ ⟨[ArrayData.strings [some "ab"]]⟩ =
      LenEvaluator.evaluate ⟨⟨0⟩⟩ ⟨[ArrayData.strings [some "ab"], ArrayData.ints []]⟩ :=
  ⟨by decide,
   lenEvaluator_idempotent_across_contexts ⟨⟨0⟩⟩ _ _ (by decide)⟩

/-- Claim C8: `evaluate` leaves the evaluation context and the arrays
stored in it unchanged — the state-passing form of the source body hands
back the work area exactly as given, agreeing with `evaluate` on the
produced output: the call only reads stored arrays and produces a new
output array. -/
theorem lenEvaluator_frame (e : LenEvaluator) (w : WorkArea) :
    (e.evaluateSt w).2 = w ∧ (e.evaluateSt w).1 = e.evaluate w := by
  unfold LenEvaluator.evaluateSt LenEvaluator.evaluate WorkArea.expressionSt
  cases h : w.expression e.input with
  | none => simp
  | some arr => cases harrow : arrowLength arr <;> simp [harrow]

end Expressions

namespace Stores

/-- Appending entries on the right preserves an existing lookup. -/
theorem lookupKey_append_of_some (m l : List (ObjectStoreKey × Nat))
    (k : ObjectStoreKey) (h : Nat) (hm : lookupKey m k = some h) :
    lookupKey (m ++ l) k = some h := by
  induction m with
  | nil => simp [lookupKey] at hm
  | cons p rest ih =>
      obtain ⟨k1, h1⟩ := p
      by_cases hk : k1 = k
      · simp [lookupKey, hk] at hm ⊢
        exact hm
      · simp [lookupKey, hk] at hm ⊢
        exact ih hm

/-- A lookup absent on the left of an append resolves on the right. -/
theorem lookupKey_append_of_none (m l : List (ObjectStoreKey × Nat))
    (k : ObjectStoreKey) (hm : lookupKey m k = none) :
    lookupKey (m ++ l) k = lookupKey l k := by
  induction m with
  | nil => simp [lookupKey]
  | cons p rest ih =>
      obtain ⟨k1, h1⟩ := p
      by_cases hk : k1 = k
      · simp [lookupKey, hk] at hm
      · simp [lookupKey, hk] at hm ⊢
        exact ih hm

/-- A successful `object_store` call leaves the returned handle cached
under the resolved key. -/
theorem object_store_ok_lookup (env : BuildEnv) (s s1 : ObjectStoreRegistry)
    (url : ObjectStoreUrl) (k : ObjectStoreKey) (h : Nat)
    (hk : url.key = .ok k)
    (hr : ObjectStoreRegistry.object_store env s url = (.ok h, s1)) :
    lookupKey s1.object_stores k = some h := by
  unfold ObjectStoreRegistry.object_store at hr
  simp only [hk] at hr
  cases hl : lookupKey s.object_stores k with
  | some h0 =>
      simp only [hl, Prod.mk.injEq, Except.ok.injEq] at hr
      obtain ⟨rfl, rfl⟩ := hr
      exact hl
  | none =>
      simp only [hl] at hr
      cases hc : create_object_store env k s.nextId with
      | error e => simp [hc] at hr
      | ok h2 =>
          simp only [hc, Prod.mk.injEq, Except.ok.injEq] at hr
          obtain ⟨rfl, rfl⟩ := hr
          rw [lookupKey_append_of_none _ _ _ hl]
          simp [lookupKey]

/-- A key already cached is returned directly, with the registry state
unchanged. -/
theorem object_store_cached (env : BuildEnv) (s : ObjectStoreRegistry)
    (url : ObjectStoreUrl) (k : ObjectStoreKey) (h : Nat)
    (hk : url.key = .ok k) (hl : lookupKey s.object_stores k = some h) :
    ObjectStoreRegistry.object_store env s url = (.ok h, s) := by
  unfold ObjectStoreRegistry.object_store
  simp [hk, hl]

/-- `object_store` only ever appends to the cache map. -/
theorem object_store_map_extends (env : BuildEnv) (s : ObjectStoreRegistry)
    (url : ObjectStoreUrl) :
    ∃ ext, (ObjectStoreRegistry.object_store env s url).2.object_stores =
      s.object_stores ++ ext := by
  unfold ObjectStoreRegistry.object_store
  cases hk : url.key with
  | error e => exact ⟨[], by simp⟩
  | ok key =>
      cases hl : lookupKey s.object_stores key with
      | some h0 => exact ⟨[], by simp [hl]⟩
      | none =>
          cases hc : create_object_store env key s.nextId with
          | error e => exact ⟨[], by simp [hl, hc]⟩
          | ok h2 => exact ⟨[(key, h2)], by simp [hl, hc]⟩

/-- `upload` only ever appends to the cache map (its sole state effect is
its inner `object_store` call). -/
theorem upload_map_extends (env : BuildEnv) (s : ObjectStoreRegistry)
    (url : ObjectStoreUrl) (io : UploadIO) :
    ∃ ext, (ObjectStoreRegistry.upload env s url io).2.object_stores =
      s.object_stores ++ ext := by
  unfold ObjectStoreRegistry.upload
  cases hp : url.path with
  | error e => exact ⟨[], by simp⟩
  | ok p =>
      obtain ⟨ext, hext⟩ := object_store_map_extends env s url
      cases hos : ObjectStoreRegistry.object_store env s url with
      | mk r s1 =>
          rw [hos] at hext
          cases r with
          | error e => exact ⟨ext, hext⟩
          | ok os => exact ⟨ext, hext⟩

/-- One registry operation only ever appends to the cache map. -/
theorem runOp_map_extends (env : BuildEnv) (s : ObjectStoreRegistry)
    (op : RegistryOp) :
    ∃ ext, (runOp env s op).object_stores = s.object_stores ++ ext := by
  cases op with
  | getStore url => exact object_store_map_extends env s url
  | uploadOp url io => exact upload_map_extends env s url io

/-- An existing cached mapping survives any sequence of registry
operations. -/
theorem lookup_runOps_preserved (env : BuildEnv) (s : ObjectStoreRegistry)
    (k : ObjectStoreKey) (h : Nat) (ops : List RegistryOp)
    (hl : lookupKey s.object_stores k = some h) :
    lookupKey (runOps env s ops).object_stores k = some h := by
  induction ops generalizing s with
  | nil => exact hl
  | cons op rest ih =>
      have hstep : lookupKey (runOp env s op).object_stores k = some h := by
        obtain ⟨ext, hext⟩ := runOp_map_extends env s op
        rw [hext]
        exact lookupKey_append_of_some _ _ _ _ hl
      have : runOps env s (op :: rest) = runOps env (runOp env s op) rest := by
        simp [runOps, List.foldl]
      rw [this]
      exact ih _ hstep

end Stores

namespace Stores

/-- Claim C3: resolution caches per distinct scheme/key — when a first
call with a URL resolving to key `k` returns handle `h`, a second call
with any URL resolving to the same key returns the already-cached `h` and
leaves the registry state (cache map and fresh-handle supply) unchanged,
constructing no new backend. -/
theorem object_store_resolution_idempotent (env : BuildEnv)
    (s s1 : ObjectStoreRegistry) (url1 url2 : ObjectStoreUrl)
    (k : ObjectStoreKey) (h : Nat)
    (hk1 : url1.key = .ok k) (hk2 : url2.key = .ok k)
    (hr : ObjectStoreRegistry.object_store env s url1 = (.ok h, s1)) :
    ObjectStoreRegistry.object_store env s1 url2 = (.ok h, s1) :=
  object_store_cached env s1 url2 k h hk2
    (object_store_ok_lookup env s s1 url1 k h hk1 hr)

/-- Witness for C3: after a first resolution of `file:///foo` populates
the cache, resolving `file:///bar` (same `Local` key) returns the cached
handle and leaves the registry untouched. -/
theorem object_store_resolution_idempotent_witness :
    ObjectStoreRegistry.object_store envAllOk
        { object_stores := [(ObjectStoreKey.Local, 0)], nextId := 1 }
        { key_result := .ok ObjectStoreKey.Local, path_result := .ok "bar" } =
      (.ok 0, { object_stores := [(ObjectStoreKey.Local, 0)], nextId := 1 }) :=
  object_store_resolution_idempotent envAllOk ObjectStoreRegistry.new
    { object_stores := [(ObjectStoreKey.Local, 0)], nextId := 1 }
    { key_result := .ok ObjectStoreKey.Local, path_result := .ok "foo" }
    { key_result := .ok ObjectStoreKey.Local, path_result := .ok "bar" }
    ObjectStoreKey.Local 0 rfl rfl (by rfl)

/-- Counterexample to claim C2 as stated: a failure to open the local
source yields the `Internal` variant, and so does a failure of the remote
write at the copy step or at the shutdown step — the local-open failure
mode and the remote-write failure mode share the `Internal` error
variant. -/
theorem upload_conflated_error_variants_counterexample :
    (ObjectStoreRegistry.upload envAllOk ObjectStoreRegistry.new
        { key_result := .ok ObjectStoreKey.Local, path_result := .ok "foo" }
        { openOk := false, putMultipartOk := true, copyOk := true, shutdownOk := true }).1 =
      .error .Internal ∧
    (ObjectStoreRegistry.upload envAllOk ObjectStoreRegistry.new
        { key_result := .ok ObjectStoreKey.Local, path_result := .ok "foo" }
        { openOk := true, putMultipartOk := true, copyOk := false, shutdownOk := true }).1 =
      .error .Internal ∧
    (ObjectStoreRegistry.upload envAllOk ObjectStoreRegistry.new
        { key_result := .ok ObjectStoreKey.Local, path_result := .ok "foo" }
        { openOk := true, putMultipartOk := true, copyOk := true, shutdownOk := false }).1 =
      .error .Internal :=
  ⟨rfl, rfl, rfl⟩

/-- Claim C2 as amended: a local-open failure yields `Internal` and a
remote-write failure at the `put_multipart` initiation yields
`ReadWriteObjectStore`, and these variants are distinct — but remote-write
failures at the copy or shutdown steps also yield `Internal`, so only the
initiation failure is distinguishable from the local-open failure. -/
theorem upload_error_variants (env : BuildEnv) (s s1 : ObjectStoreRegistry)
    (url : ObjectStoreUrl) (p : String) (h : Nat) (io : UploadIO)
    (hpath : url.path = .ok p)
    (hos : ObjectStoreRegistry.object_store env s url = (.ok h, s1)) :
    (io.openOk = false →
      (ObjectStoreRegistry.upload env s url io).1 = .error .Internal) ∧
    (io.openOk = true → io.putMultipartOk = false →
      (ObjectStoreRegistry.upload env s url io).1 = .error .ReadWriteObjectStore) ∧
    (io.openOk = true → io.putMultipartOk = true → io.copyOk = false →
      (ObjectStoreRegistry.upload env s url io).1 = .error .Internal) ∧
    (io.openOk = true → io.putMultipartOk = true → io.copyOk = true →
      io.shutdownOk = false →
      (ObjectStoreRegistry.upload env s url io).1 = .error .Internal) ∧
    Error.Internal ≠ Error.ReadWriteObjectStore := by
  unfold ObjectStoreRegistry.upload
  simp only [hpath, hos]
  refine ⟨?_, ?_, ?_, ?_, by simp⟩ <;> intros <;> simp [*]

/-- Witness for the amended C2: the four failure sites at concrete
inputs. -/
theorem upload_error_variants_witness :
    (ObjectStoreRegistry.upload envAllOk ObjectStoreRegistry.new
        { key_result := .ok ObjectStoreKey.Memory, path_result := .ok "foo" }
        { openOk := true, putMultipartOk := false, copyOk := true, shutdownOk := true }).1 =
      .error .ReadWriteObjectStore ∧
    (ObjectStoreRegistry.upload envAllOk ObjectStoreRegistry.new
        { key_result := .ok ObjectStoreKey.Memory, path_result := .ok "foo" }
        { openOk := false, putMultipartOk := true, copyOk := true, shutdownOk := true }).1 =
      .error .Internal :=
  ⟨(upload_error_variants envAllOk ObjectStoreRegistry.new
      { object_stores := [(ObjectStoreKey.Memory, 0)], nextId := 1 }
      { key_result := .ok ObjectStoreKey.Memory, path_result := .ok "foo" }
      "foo" 0 { openOk := true, putMultipartOk := false, copyOk := true, shutdownOk := true }
      rfl (by rfl)).2.1 rfl rfl,
   (upload_error_variants envAllOk ObjectStoreRegistry.new
      { object_stores := [(ObjectStoreKey.Memory, 0)], nextId := 1 }
      { key_result := .ok ObjectStoreKey.Memory, path_result := .ok "foo" }
      "foo" 0 { openOk := false, putMultipartOk := true, copyOk := true, shutdownOk := true }
      rfl (by rfl)).1 rfl⟩

/-- Claim C10: the registry cache is append-only and stable — once
`object_store` has returned handle `h` for a key, the mapping is in the
cache, no later sequence of `object_store` or `upload` calls removes or
replaces it, and every later `object_store` lookup of that key in the same
registry returns the same handle. -/
theorem registry_cache_append_only_stable (env : BuildEnv)
    (s s1 : ObjectStoreRegistry) (url : ObjectStoreUrl)
    (k : ObjectStoreKey) (h : Nat)
    (hk : url.key = .ok k)
    (hr : ObjectStoreRegistry.object_store env s url = (.ok h, s1)) :
    lookupKey s1.object_stores k = some h ∧
    ∀ ops : List RegistryOp,
      lookupKey (runOps env s1 ops).object_stores k = some h ∧
      (ObjectStoreRegistry.object_store env (runOps env s1 ops) url).1 = .ok h := by
  have hbase := object_store_ok_lookup env s s1 url k h hk hr
  refine ⟨hbase, fun ops => ?_⟩
  have hpres := lookup_runOps_preserved env s1 k h ops hbase
  refine ⟨hpres, ?_⟩
  rw [object_store_cached env _ url k h hk hpres]

/-- Witness for C10: after caching the `Local` backend, a later
`object_store` call on a fresh URL and an `upload` leave the mapping in
place, and a final lookup returns the same handle. -/
theorem registry_cache_append_only_stable_witness :
    lookupKey ({ object_stores := [(ObjectStoreKey.Local, 0)], nextId := 1 }
        : ObjectStoreRegistry).object_stores ObjectStoreKey.Local = some 0 ∧
    lookupKey (runOps envAllOk
        { object_stores := [(ObjectStoreKey.Local, 0)], nextId := 1 }
        [RegistryOp.getStore { key_result := .ok ObjectStoreKey.Memory, path_result := .ok "m" },
         RegistryOp.uploadOp { key_result := .ok ObjectStoreKey.Local, path_result := .ok "p" }
           { openOk := true, putMultipartOk := true, copyOk := true, shutdownOk := true }]).object_stores
      ObjectStoreKey.Local = some 0 ∧
    (ObjectStoreRegistry.object_store envAllOk
        (runOps envAllOk
          { object_stores := [(ObjectStoreKey.Local, 0)], nextId := 1 }
          [RegistryOp.getStore { key_result := .ok ObjectStoreKey.Memory, path_result := .ok "m" },
           RegistryOp.uploadOp { key_result := .ok ObjectStoreKey.Local, path_result := .ok "p" }
             { openOk := true, putMultipartOk := true, copyOk := true, shutdownOk := true }])
        { key_result := .ok ObjectStoreKey.Local, path_result := .ok "foo" }).1 = .ok 0 := by
  have hmain := registry_cache_append_only_stable envAllOk ObjectStoreRegistry.new
    { object_stores := [(ObjectStoreKey.Local, 0)], nextId := 1 }
    { key_result := .ok ObjectStoreKey.Local, path_result := .ok "foo" }
    ObjectStoreKey.Local 0 rfl (by rfl)
  have hops := hmain.2
    [RegistryOp.getStore { key_result := .ok ObjectStoreKey.Memory, path_result := .ok "m" },
     RegistryOp.uploadOp { key_result := .ok ObjectStoreKey.Local, path_result := .ok "p" }
       { openOk := true, putMultipartOk := true, copyOk := true, shutdownOk := true }]
  exact ⟨hmain.1, hops.1, hops.2⟩

end Stores
